import Mathlib

/-!
# modbusprobe: the half-duplex UART adapter and the command-line driver

A shallow embedding of `src/main.cpp`.

* `ModbusUart` is the adapter class of lines 11-65: its constructor and its
  `write` hook.  The object carries the level driven on the tx-enable pin,
  the stored bit rate, the error message, and a log of the effects it has
  performed (oldest first).
* `main` is the program of lines 68-166.  It is a function of an `Env`, which
  holds everything the program obtains from the command line, the hardware
  and the Modbus library, and it yields the exit code and the log of effects.

Library calls whose code is not part of the repository (`Uart`, `Pin`,
`Timer`, `Printer`, `Cli`, `ModbusMaster`) are recorded as effects, and the
values they return are read from the environment.
-/

namespace ModbusProbe

/-! ## Effects -/

/-- A byte buffer (`var::Data`), as the list of its bytes. -/
abbrev Data := List Nat

/-- One argument handed to a printf-style format string. -/
inductive Arg where
  | int (v : Int)
  | str (s : String)
deriving DecidableEq, Repr

/-- A printf-style text as the program hands it to the `Printer`: the format
string and its arguments, in call order.  A literal has no argument. -/
structure Text where
  fmt : String
  args : List Arg
deriving DecidableEq, Repr

/-- The observable actions of the program. -/
inductive Effect where
  /-- The assignment `m_tx_enable = level`. -/
  | setTxEnable (level : Bool)
  /-- The call `Timer::wait_microseconds(us)`. -/
  | waitMicroseconds (us : Nat)
  /-- The call `Timer::wait_milliseconds(ms)`. -/
  | waitMilliseconds (ms : Nat)
  /-- The call `packet_spacing().wait()`. -/
  | packetSpacingWait
  /-- The call `m_uart.open(Uart::NONBLOCK | Uart::RDWR)`. -/
  | uartOpen
  /-- The call `m_tx_enable.set_output()`. -/
  | pinSetOutput
  /-- The call `m_uart.set_attributes(attributes)`. -/
  | uartSetAttributes
  /-- The call `m_uart.write(data)`. -/
  | uartWrite (data : Data)
  /-- The call `m_uart.get(c)`. -/
  | uartGet
  /-- The call `set_error_message(msg)` on the adapter. -/
  | setErrorMessage (msg : String)
  /-- The call `modbus.initialize()`. -/
  | modbusInit
  /-- The call `modbus.preset_single_register(device, register, value)`. -/
  | presetSingleRegister (device register value : Nat)
  /-- The call `modbus.read_holding_registers(device, register, points)`. -/
  | readHoldingRegisters (device register points : Nat)
  /-- The call `p.open_object(name)`. -/
  | openObject (name : String)
  /-- The call `p.close_object()`. -/
  | closeObject
  /-- The call `p.key(name, value...)`. -/
  | key (name : Text) (value : Text)
  /-- The call `p.error(msg...)`. -/
  | error (msg : Text)
deriving DecidableEq, Repr

/-- The effects that are operations on the UART device. -/
def Effect.isUartOp : Effect → Bool
  | .uartOpen => true
  | .uartSetAttributes => true
  | .uartWrite _ => true
  | .uartGet => true
  | _ => false

/-- The effects that are a raw UART write. -/
def Effect.isRawWrite : Effect → Bool
  | .uartWrite _ => true
  | _ => false

/-- The effects that drive the tx-enable line. -/
def Effect.isTxEnable : Effect → Bool
  | .setTxEnable _ => true
  | _ => false

/-- The effects that invoke the Modbus read operation. -/
def Effect.isReadCall : Effect → Bool
  | .readHoldingRegisters _ _ _ => true
  | _ => false

/-- The effects that print one register entry (line 155): a key labelled `[%ld]`. -/
def Effect.isRegisterEntry : Effect → Bool
  | .key name _ => name.fmt == "[%ld]"
  | _ => false

/-- The effects that print the `result` key (lines 145, 151, 158). -/
def Effect.isResultKey : Effect → Bool
  | .key name _ => name.fmt == "result"
  | _ => false

/-! ## Machine integers -/

/-- The value of a `u32` converted to `int` (32 bits, two's complement). -/
def toInt32 (n : Nat) : Int :=
  if n % 2 ^ 32 < 2 ^ 31 then ((n % 2 ^ 32 : Nat) : Int) else ((n % 2 ^ 32 : Nat) : Int) - 2 ^ 32

/-- The value of an `int` converted to `u16`. -/
def toU16 (v : Int) : Nat := (v % 65536).toNat

/-! ## The adapter: `ModbusUart` -/

/-- The adapter object.  `effects` logs what it has done, oldest first. -/
structure ModbusUart where
  m_tx_enable : Bool
  m_bitrate : Nat
  error_message : String
  effects : List Effect
deriving DecidableEq, Repr

/-- What the UART returns during one call of `write`. -/
structure UartReplies where
  /-- The value of `m_uart.write(data)` (line 41). -/
  write_result : Int
  /-- The value of `m_uart.get(c)` (line 46), which the code ignores. -/
  get_result : Int
  /-- The byte that `m_uart.get(c)` stores into `c`. -/
  get_char : Nat
  /-- The value of `m_uart.error_number()` when line 48 asks for it. -/
  error_number : Int
deriving DecidableEq, Repr

/-- Append one effect to the log. -/
def ModbusUart.emit (self : ModbusUart) (e : Effect) : ModbusUart :=
  { self with effects := self.effects ++ [e] }

/-- The assignment `m_tx_enable = level`: drive the pin. -/
def ModbusUart.set_tx_enable (self : ModbusUart) (level : Bool) : ModbusUart :=
  { self.emit (.setTxEnable level) with m_tx_enable := level }

/-- The base-class call `set_error_message(msg)`. -/
def ModbusUart.set_error_message (self : ModbusUart) (msg : String) : ModbusUart :=
  { self.emit (.setErrorMessage msg) with error_message := msg }

/-- The text of `String().format("failed to send %d bytes (%d, %d)", size, result,
error_number)`, each `%d` rendered in decimal. -/
def formatSendFailure (size result error_number : Int) : String :=
  "failed to send " ++ toString size ++ " bytes (" ++ toString result ++ ", "
    ++ toString error_number ++ ")"

/-- The method `ModbusUart::write` (lines 38-51): the returned value and the object
afterwards. -/
def ModbusUart.write (self : ModbusUart) (data : Data) (rep : UartReplies) : Int × ModbusUart :=
  let s := self.set_tx_enable true
  let s := s.emit (.waitMicroseconds 500)
  let s := s.emit (.uartWrite data)
  let result := rep.write_result
  let s := s.emit .packetSpacingWait
  let s := s.set_tx_enable false
  let s := s.emit (.waitMilliseconds 1)
  let s := s.emit .uartGet
  let _c := rep.get_char
  let s :=
    if result ≠ toInt32 data.length then
      s.set_error_message (formatSendFailure (toInt32 data.length) result rep.error_number)
    else s
  (result, s)

/-- The effects performed between two states of the adapter. -/
def ModbusUart.effectsSince (after before : ModbusUart) : List Effect :=
  after.effects.drop before.effects.length

/-- The constructor `ModbusUart::ModbusUart` (lines 14-34).  `level` is the level of
the tx-enable pin before the program drives it; `freq` is `attributes.freq()`; the
three integers are what `m_uart.open`, `m_tx_enable.set_output` and
`m_uart.set_attributes` return.  The base class starts with an empty error message. -/
def ModbusUart.new (level : Bool) (freq : Nat) (uart_open set_output set_attributes : Int) :
    ModbusUart :=
  let self : ModbusUart := { m_tx_enable := level, m_bitrate := 0, error_message := "", effects := [] }
  let self := { self with m_bitrate := freq }
  let self := self.emit .uartOpen
  if uart_open < 0 then
    self.set_error_message "Failed to open UART"
  else
    let self := self.emit .pinSetOutput
    if set_output < 0 then
      self.set_error_message "Failed to initialize tx enable"
    else
      let self := self.emit .uartSetAttributes
      if set_attributes < 0 then
        self.set_error_message "Failed to set UART attributes"
      else
        self

/-! ## The program: `main` -/

/-- The flag constants of `Uart` that `main` tests; their values are declared in
the library headers. -/
structure UartFlags where
  IS_STOP1 : Nat
  IS_STOP2 : Nat
  IS_PARITY_EVEN : Nat
  IS_PARITY_ODD : Nat

/-- Everything one run of `main` obtains from outside the program. -/
structure Env where
  flags : UartFlags
  /-- The level of the tx-enable pin before the program drives it. -/
  pin_level : Bool
  /-- The value of `cli.handle_uart(uart_attr)`. -/
  handle_uart : Bool
  /-- The value of `uart_attr.freq()`. -/
  freq : Nat
  /-- The value of `uart_attr.o_flags()`. -/
  o_flags : Nat
  /-- The value of `uart_attr.width()`. -/
  width : Nat
  /-- The value of `m_uart.open(...)` in the constructor. -/
  uart_open : Int
  /-- The value of `m_tx_enable.set_output()` in the constructor. -/
  set_output : Int
  /-- The value of `m_uart.set_attributes(attributes)` in the constructor. -/
  set_attributes : Int
  /-- The value of `modbus.initialize()`. -/
  init_result : Int
  /-- The value of `modbus.error_message()` after `initialize`. -/
  init_error_message : String
  /-- The value of `cli.is_option("-write")`. -/
  option_write : Bool
  /-- The value of `cli.is_option("-read")`. -/
  option_read : Bool
  /-- The value of `cli.is_option("-value")`. -/
  option_value : Bool
  /-- The value of `cli.get_option_value("-device_address")`. -/
  device_address : Int
  /-- The value of `cli.get_option_value("-register_address")`. -/
  register_address : Int
  /-- The value of `cli.get_option_value("-value")`. -/
  value : Int
  /-- The value of `cli.get_option_value("-number_of_points")`. -/
  number_of_points : Int
  /-- The value of `modbus.preset_single_register(...)`. -/
  preset_single_register : Int
  /-- The value of `modbus.error_message()` after `preset_single_register`. -/
  preset_error_message : String
  /-- The data block that `modbus.read_holding_registers(...)` returns. -/
  read_holding_registers : Data
  /-- The value of `modbus.error_message()` after `read_holding_registers`. -/
  read_error_message : String
  /-- The library accessor `var::Data::at_u16`. -/
  at_u16 : Data → Nat → Nat

/-- How a run of `main` ends: the process exit code and the effects performed. -/
structure Outcome where
  exit_code : Int
  effects : List Effect

/-- A literal text. -/
def lit (s : String) : Text := { fmt := s, args := [] }

/-- The function `show_usage` (lines 168-172). -/
def show_usage : List Effect :=
  [.openObject "modbusprobe",
   .key (lit "usage")
     (lit "modbusuart -uart <port> -tx <x.y> -rx <x.y> -tx_enable <x.y> -f <bitrate>")]

/-- Lines 94-109: the report of the UART attributes. -/
def uartAttributes (env : Env) : List Effect :=
  [.openObject "uart attributes",
   .key (lit "freq") { fmt := "%ld", args := [.int env.freq] }]
  ++ (if env.o_flags &&& env.flags.IS_STOP1 ≠ 0 then [.key (lit "stop bits") (lit "1")]
      else if env.o_flags &&& env.flags.IS_STOP2 ≠ 0 then [.key (lit "stop bits") (lit "2")]
      else [])
  ++ (if env.o_flags &&& env.flags.IS_PARITY_EVEN ≠ 0 then [.key (lit "parity") (lit "even")]
      else if env.o_flags &&& env.flags.IS_PARITY_ODD ≠ 0 then [.key (lit "parity") (lit "odd")]
      else [.key (lit "parity") (lit "none")])
  ++ [.key (lit "width") { fmt := "%d", args := [.int env.width] },
      .closeObject]

/-- The body of the loop of lines 154-156 at index `i`: one register entry. -/
def registerEntry (env : Env) (register_address : Nat) (result : Data) (i : Nat) : Effect :=
  .key { fmt := "[%ld]", args := [.int (((register_address + i * 2 % 2 ^ 32) % 2 ^ 32 : Nat) : Int)] }
       { fmt := "%d", args := [.int (env.at_u16 result i)] }

/-- The loop of lines 154-156, entered with the counter at `i`.  The counter is a
`u32` and stays below `number_of_points`, a `u16`, so `i + 1` does not wrap. -/
def registerLoop (env : Env) (register_address : Nat) (result : Data) (number_of_points : Nat)
    (i : Nat) : List Effect :=
  if i < number_of_points then
    registerEntry env register_address result i
      :: registerLoop env register_address result number_of_points (i + 1)
  else
    []
termination_by number_of_points - i

/-- Lines 131-163: the body of the `-read` mode. -/
def readMode (env : Env) : List Effect :=
  let device_address := toU16 env.device_address
  let register_address := toU16 env.register_address
  let number_of_points := toU16 env.number_of_points
  let result := env.read_holding_registers
  [.readHoldingRegisters device_address register_address number_of_points,
   .openObject "read holding registers",
   .key (lit "device address") { fmt := "%X", args := [.int device_address] },
   .key (lit "register address") { fmt := "%X", args := [.int register_address] },
   .key (lit "number of points") { fmt := "%X", args := [.int number_of_points] }]
  ++ (if number_of_points = 0 then
        [.error (lit "invalid number of points"),
         .key (lit "result") (lit "fail")]
      else if result.length = 0 then
        [.error { fmt := "Failed to read holding registers: %s", args := [.str env.read_error_message] },
         .key (lit "result") (lit "fail")]
      else
        [.openObject "holding registers"]
        ++ registerLoop env register_address result number_of_points 0
        ++ [.closeObject,
            .key (lit "result") (lit "success")])
  ++ [.closeObject]

/-- Lines 131-165: the `-read` mode and the return from `main`, entered with the
effects `t` performed so far. -/
def readAndReturn (env : Env) (t : List Effect) : Outcome :=
  let t := if env.option_read then t ++ readMode env else t
  { exit_code := 0, effects := t }

/-- The program `main` (lines 68-166).  The calls on `cli` before line 76
(`set_publisher`, `handle_version`) and the constructor of `ModbusMaster` leave no
effect in the log; the runs described are those in which they return. -/
def main (env : Env) : Outcome :=
  if env.handle_uart = false then
    { exit_code := 1, effects := show_usage }
  else
    let modbus_uart :=
      ModbusUart.new env.pin_level env.freq env.uart_open env.set_output env.set_attributes
    let t := modbus_uart.effects
    if modbus_uart.error_message.isEmpty = false then
      { exit_code := 1,
        effects := t ++ [.error { fmt := "Failed to initialize modbus UART: %s",
                                  args := [.str modbus_uart.error_message] }] }
    else
      let t := t ++ [.modbusInit]
      let t :=
        if env.init_result < 0 then
          t ++ [.error { fmt := "Invalid Uart: %s", args := [.str env.init_error_message] }]
            ++ show_usage
        else t
      let t := t ++ uartAttributes env
      if env.option_write then
        let device_address := toU16 env.device_address
        let register_address := toU16 env.register_address
        if env.option_value = false then
          { exit_code := 1, effects := t ++ show_usage }
        else
          let value := toU16 env.value
          let t := t ++
            [.openObject "preset single register",
             .key (lit "device address") { fmt := "%d", args := [.int device_address] },
             .key (lit "register address") { fmt := "%d", args := [.int register_address] },
             .key (lit "value") { fmt := "%d", args := [.int value] },
             .presetSingleRegister device_address register_address value]
          let t :=
            if env.preset_single_register < 0 then
              t ++ [.error { fmt := "Failed to preset single register: %s",
                             args := [.str env.preset_error_message] }]
            else t
          let t := t ++ [.closeObject]
          readAndReturn env t
      else
        readAndReturn env t

/-! ## A sample run -/

/-- A sample reading of `var::Data::at_u16`: the 16-bit word at index `i` of the
buffer, low byte first, and `0` outside the buffer. -/
def sample_at_u16 (d : Data) (i : Nat) : Nat :=
  d.getD (2 * i) 0 + 256 * d.getD (2 * i + 1) 0

/-- A sample environment: the UART and the Modbus master initialize, and the
command line asks to read two registers at address `0x10` of device 1; the
device answers with two registers. -/
def sampleEnv : Env where
  flags := { IS_STOP1 := 1, IS_STOP2 := 2, IS_PARITY_EVEN := 4, IS_PARITY_ODD := 8 }
  pin_level := false
  handle_uart := true
  freq := 9600
  o_flags := 1
  width := 8
  uart_open := 0
  set_output := 0
  set_attributes := 0
  init_result := 0
  init_error_message := ""
  option_write := false
  option_read := true
  option_value := false
  device_address := 1
  register_address := 16
  value := 0
  number_of_points := 2
  preset_single_register := 0
  preset_error_message := ""
  read_holding_registers := [0, 7, 1, 2]
  read_error_message := ""
  at_u16 := sample_at_u16

/-- The sample run, except that `modbus.initialize()` fails. -/
def initFailsEnv : Env :=
  { sampleEnv with init_result := -1, init_error_message := "no bitrate" }

/-- The sample run, except that the UART does not open. -/
def openFailsEnv : Env :=
  { sampleEnv with uart_open := -1 }

/-- The sample run, except that the command line asks for zero registers. -/
def readZeroEnv : Env :=
  { sampleEnv with number_of_points := 0, read_holding_registers := [] }

/-- The sample run, except that the command line asks for 65536 registers, which
the `u16` variable `number_of_points` holds as zero. -/
def readWrappedEnv : Env :=
  { sampleEnv with number_of_points := 65536 }

/-- The sample run, except that the device answers with one register only. -/
def shortReadEnv : Env :=
  { sampleEnv with read_holding_registers := [0, 7] }

/-! ## The effects of `write` -/

/-- The log after `write` is the log before it followed by the effects of the call. -/
theorem write_effects (self : ModbusUart) (data : Data) (rep : UartReplies) :
    (self.write data rep).2.effects = self.effects ++
      ([.setTxEnable true, .waitMicroseconds 500, .uartWrite data, .packetSpacingWait,
        .setTxEnable false, .waitMilliseconds 1, .uartGet] ++
       if rep.write_result ≠ toInt32 data.length then
         [.setErrorMessage (formatSendFailure (toInt32 data.length) rep.write_result rep.error_number)]
       else []) := by
  by_cases h : rep.write_result = toInt32 data.length <;>
    simp [ModbusUart.write, ModbusUart.set_tx_enable, ModbusUart.set_error_message,
      ModbusUart.emit, h]

/-- The effects of one call of `write`. -/
theorem effectsSince_write (self : ModbusUart) (data : Data) (rep : UartReplies) :
    (self.write data rep).2.effectsSince self =
      [.setTxEnable true, .waitMicroseconds 500, .uartWrite data, .packetSpacingWait,
        .setTxEnable false, .waitMilliseconds 1, .uartGet] ++
       if rep.write_result ≠ toInt32 data.length then
         [.setErrorMessage (formatSendFailure (toInt32 data.length) rep.write_result rep.error_number)]
       else [] := by
  rw [ModbusUart.effectsSince, write_effects, List.drop_left]

/-- A size below `2 ^ 31` survives the conversion to `int`. -/
theorem toInt32_of_lt (n : Nat) (h : n < 2 ^ 31) : toInt32 n = n := by
  unfold toInt32
  have h1 : n % 2 ^ 32 = n := Nat.mod_eq_of_lt (by omega)
  rw [h1, if_pos h]

/-- C1. For every frame and every reply of the UART, one call of `write` appends to
the log exactly: tx-enable set to true, a wait of 500 microseconds, one raw write of
the whole frame, the packet-spacing wait, tx-enable set to false, a wait of one
millisecond, in this order and with nothing in between.  What follows these six is
only the single-byte read and the setting of the error message.  The raw write is
issued exactly once, and tx-enable is asserted before it. -/
theorem write_performs_timed_send_sequence (self : ModbusUart) (data : Data) (rep : UartReplies) :
    (self.write data rep).2.effects = self.effects ++ (self.write data rep).2.effectsSince self
    ∧ ((self.write data rep).2.effectsSince self).take 6 =
        [.setTxEnable true, .waitMicroseconds 500, .uartWrite data, .packetSpacingWait,
         .setTxEnable false, .waitMilliseconds 1]
    ∧ (∀ e ∈ ((self.write data rep).2.effectsSince self).drop 6,
        e = .uartGet ∨ ∃ msg, e = .setErrorMessage msg)
    ∧ ((self.write data rep).2.effectsSince self).filter Effect.isRawWrite = [.uartWrite data]
    ∧ ((self.write data rep).2.effectsSince self).indexOf (.setTxEnable true)
        < ((self.write data rep).2.effectsSince self).indexOf (.uartWrite data) := by
  rw [effectsSince_write, write_effects]
  refine ⟨rfl, by simp, ?_, ?_, ?_⟩
  · intro e he
    by_cases h : rep.write_result = toInt32 data.length
    · simp [h] at he
      exact Or.inl he
    · simp [h] at he
      rcases he with he | he
      · exact Or.inl he
      · exact Or.inr ⟨_, he⟩
  · by_cases h : rep.write_result = toInt32 data.length <;> simp [h, Effect.isRawWrite, List.filter]
  · simp [List.indexOf_cons]

/-- C2. For every frame and every result of the raw write, the tx-enable line is
deasserted when `write` returns: the level held by the adapter is false, and the
last assignment to the line during the call is the deassertion. -/
theorem write_leaves_tx_enable_deasserted (self : ModbusUart) (data : Data) (rep : UartReplies) :
    (self.write data rep).2.m_tx_enable = false
    ∧ (((self.write data rep).2.effectsSince self).filter Effect.isTxEnable).getLast?
        = some (.setTxEnable false) := by
  constructor
  · by_cases h : rep.write_result = toInt32 data.length <;>
      simp [ModbusUart.write, ModbusUart.set_tx_enable, ModbusUart.set_error_message,
        ModbusUart.emit, h]
  · rw [effectsSince_write]
    by_cases h : rep.write_result = toInt32 data.length <;> simp [h, Effect.isTxEnable, List.filter]

/-- C3, as stated, fails: sending the frame `01 03` (fully written), the
deassertion of tx-enable does not come after both the raw write and the wait of one
millisecond; the wait of one millisecond comes after the deassertion. -/
theorem write_deasserts_before_guard_wait :
    ¬ ((((ModbusUart.new false 9600 0 0 0).write [1, 3] ⟨2, 0, 0, 0⟩).2.effectsSince
          (ModbusUart.new false 9600 0 0 0)).indexOf (.uartWrite [1, 3])
        < (((ModbusUart.new false 9600 0 0 0).write [1, 3] ⟨2, 0, 0, 0⟩).2.effectsSince
          (ModbusUart.new false 9600 0 0 0)).indexOf (.setTxEnable false)
      ∧ (((ModbusUart.new false 9600 0 0 0).write [1, 3] ⟨2, 0, 0, 0⟩).2.effectsSince
          (ModbusUart.new false 9600 0 0 0)).indexOf (.waitMilliseconds 1)
        < (((ModbusUart.new false 9600 0 0 0).write [1, 3] ⟨2, 0, 0, 0⟩).2.effectsSince
          (ModbusUart.new false 9600 0 0 0)).indexOf (.setTxEnable false)) := by
  decide

/-- C3, amended. Across one send, tx-enable is asserted strictly before the raw
write and stays asserted through the raw write and the packet-spacing wait; the
deassertion comes after that wait and before the wait of one millisecond, which
is part of the same send. -/
theorem write_tx_enable_window (self : ModbusUart) (data : Data) (rep : UartReplies) :
    ((self.write data rep).2.effectsSince self).indexOf (.setTxEnable true)
      < ((self.write data rep).2.effectsSince self).indexOf (.uartWrite data)
    ∧ ((self.write data rep).2.effectsSince self).indexOf (.uartWrite data)
      < ((self.write data rep).2.effectsSince self).indexOf .packetSpacingWait
    ∧ ((self.write data rep).2.effectsSince self).indexOf .packetSpacingWait
      < ((self.write data rep).2.effectsSince self).indexOf (.setTxEnable false)
    ∧ ((self.write data rep).2.effectsSince self).indexOf (.setTxEnable false)
      < ((self.write data rep).2.effectsSince self).indexOf (.waitMilliseconds 1)
    ∧ ((self.write data rep).2.effectsSince self).indexOf (.waitMilliseconds 1)
      < ((self.write data rep).2.effectsSince self).length := by
  rw [effectsSince_write]
  simp [List.indexOf_cons]

/-- C4. For every frame whose size is an `int` and every raw write result `r`:
`write` returns `r`; it sets the error message if and only if `r` differs from
the number of bytes of the frame; the message then reads
`failed to send <size> bytes (<r>, <error number>)`; and when `r` equals the
size the error message is left as it was. -/
theorem write_returns_result_and_reports_mismatch (self : ModbusUart) (data : Data)
    (rep : UartReplies) (hsize : data.length < 2 ^ 31) :
    (self.write data rep).1 = rep.write_result
    ∧ ((∃ msg, Effect.setErrorMessage msg ∈ (self.write data rep).2.effectsSince self)
        ↔ rep.write_result ≠ (data.length : Int))
    ∧ (rep.write_result ≠ (data.length : Int) →
        (self.write data rep).2.error_message =
          "failed to send " ++ toString (data.length : Int) ++ " bytes ("
            ++ toString rep.write_result ++ ", " ++ toString rep.error_number ++ ")"
        ∧ Effect.setErrorMessage (self.write data rep).2.error_message
            ∈ (self.write data rep).2.effectsSince self)
    ∧ (rep.write_result = (data.length : Int) →
        (self.write data rep).2.error_message = self.error_message) := by
  have hc := toInt32_of_lt data.length hsize
  rw [effectsSince_write, hc]
  refine ⟨rfl, ?_, ?_, ?_⟩
  · by_cases h : rep.write_result = (data.length : Int) <;> simp [h]
  · intro h
    simp [ModbusUart.write, ModbusUart.set_tx_enable, ModbusUart.set_error_message,
        ModbusUart.emit, h, hc, formatSendFailure]
  · intro h
    simp [ModbusUart.write, ModbusUart.set_tx_enable, ModbusUart.set_error_message,
        ModbusUart.emit, h, hc]

/-- The frame `01 03 00 00` is sent and the UART takes two bytes only: `write`
returns 2 and the message names the four bytes asked for and the two written. -/
theorem write_returns_result_and_reports_mismatch_witness :
    (ModbusUart.write (ModbusUart.new false 9600 0 0 0) [1, 3, 0, 0]
        { write_result := 2, get_result := 0, get_char := 1, error_number := 11 }).1 = 2
    ∧ (ModbusUart.write (ModbusUart.new false 9600 0 0 0) [1, 3, 0, 0]
        { write_result := 2, get_result := 0, get_char := 1, error_number := 11 }).2.error_message
        = "failed to send 4 bytes (2, 11)" :=
  ⟨(write_returns_result_and_reports_mismatch (ModbusUart.new false 9600 0 0 0) [1, 3, 0, 0]
      { write_result := 2, get_result := 0, get_char := 1, error_number := 11 }
      (by decide)).1,
   ((write_returns_result_and_reports_mismatch (ModbusUart.new false 9600 0 0 0) [1, 3, 0, 0]
      { write_result := 2, get_result := 0, get_char := 1, error_number := 11 }
      (by decide)).2.2.1 (by decide)).1⟩

/-- C5. Every call of `write` performs exactly one single-byte read, whatever the
raw write returned; the read comes after the deassertion of tx-enable and is the
first UART operation after it; the byte read changes neither the returned value
nor the error message. -/
theorem write_discards_one_byte_after_deassert (self : ModbusUart) (data : Data) (rep : UartReplies) :
    ((self.write data rep).2.effectsSince self).count .uartGet = 1
    ∧ ((self.write data rep).2.effectsSince self).indexOf (.setTxEnable false)
        < ((self.write data rep).2.effectsSince self).indexOf .uartGet
    ∧ (((self.write data rep).2.effectsSince self).drop
        (((self.write data rep).2.effectsSince self).indexOf (.setTxEnable false) + 1)).find?
          Effect.isUartOp = some .uartGet
    ∧ ∀ c : Nat,
        (self.write data { rep with get_char := c }).1 = (self.write data rep).1
        ∧ (self.write data { rep with get_char := c }).2.error_message
            = (self.write data rep).2.error_message := by
  rw [effectsSince_write]
  refine ⟨?_, ?_, ?_, ?_⟩
  · by_cases h : rep.write_result = toInt32 data.length <;> simp [h, List.count_cons]
  · simp [List.indexOf_cons]
  · simp [List.indexOf_cons, Effect.isUartOp]
  · intro c
    exact ⟨rfl, rfl⟩

/-! ## The constructor and the path of `main` to the `-read` mode -/

/-- The adapter built when the three steps of the constructor succeed. -/
theorem new_of_success (level : Bool) (freq : Nat) (o s a : Int)
    (ho : 0 ≤ o) (hs : 0 ≤ s) (ha : 0 ≤ a) :
    ModbusUart.new level freq o s a =
      { m_tx_enable := level, m_bitrate := freq, error_message := "",
        effects := [.uartOpen, .pinSetOutput, .uartSetAttributes] } := by
  simp [ModbusUart.new, ModbusUart.emit, not_lt.mpr ho, not_lt.mpr hs, not_lt.mpr ha]

/-- Nothing that `show_usage` prints belongs to the read report. -/
theorem show_usage_not_report (e : Effect) (he : e ∈ show_usage) :
    e.isReadCall = false ∧ e.isRegisterEntry = false ∧ e.isResultKey = false := by
  simp [show_usage] at he
  rcases he with he | he <;> subst he <;> decide

/-- Nothing in the report of the UART attributes belongs to the read report. -/
theorem uartAttributes_not_report (env : Env) (e : Effect) (he : e ∈ uartAttributes env) :
    e.isReadCall = false ∧ e.isRegisterEntry = false ∧ e.isResultKey = false := by
  unfold uartAttributes at he
  simp only [List.mem_append, List.mem_cons, List.mem_singleton, List.not_mem_nil, or_false] at he
  rcases he with (((he | he) | he) | he) | (he | he)
  · subst he; decide
  · subst he; simp [Effect.isReadCall, Effect.isRegisterEntry, Effect.isResultKey, lit]
  · split_ifs at he <;> simp at he <;> subst he <;> decide
  · split_ifs at he <;> simp at he <;> subst he <;> decide
  · subst he; simp [Effect.isReadCall, Effect.isRegisterEntry, Effect.isResultKey, lit]
  · subst he; decide

/-- A `u16` is below 65536. -/
theorem toU16_lt (v : Int) : toU16 v < 65536 := by
  unfold toU16
  have h1 : 0 ≤ v % 65536 := Int.emod_nonneg v (by decide)
  have h2 : v % 65536 < 65536 := Int.emod_lt_of_pos v (by decide)
  omega

/-- The loop entered at `i` prints the entries `i`, `i + 1`, ... up to the count. -/
theorem registerLoop_eq (env : Env) (reg : Nat) (result : Data) (n : Nat) :
    ∀ (k i : Nat), n - i = k →
      registerLoop env reg result n i = (List.range' i k).map (registerEntry env reg result) := by
  intro k
  induction k with
  | zero =>
    intro i h
    rw [registerLoop, if_neg (by omega)]
    rfl
  | succ k ih =>
    intro i h
    rw [registerLoop, if_pos (by omega), ih (i + 1) (by omega)]
    rfl

/-- The loop prints the entries `0 .. number_of_points - 1`, in this order. -/
theorem registerLoop_zero (env : Env) (reg : Nat) (result : Data) (n : Nat) :
    registerLoop env reg result n 0 = (List.range n).map (registerEntry env reg result) := by
  rw [registerLoop_eq env reg result n n 0 rfl, List.range_eq_range']

/-- When the UART initializes and `-write` comes with `-value`, `main` reaches
line 131, and nothing it has done before belongs to the read report. -/
theorem main_eq_readAndReturn (env : Env) (huart : env.handle_uart = true)
    (hopen : 0 ≤ env.uart_open) (hout : 0 ≤ env.set_output) (hattr : 0 ≤ env.set_attributes)
    (hval : env.option_write = true → env.option_value = true) :
    ∃ t : List Effect, main env = readAndReturn env t ∧
      ∀ e ∈ t, e.isReadCall = false ∧ e.isRegisterEntry = false ∧ e.isResultKey = false := by
  have hnew := new_of_success env.pin_level env.freq _ _ _ hopen hout hattr
  have hu := uartAttributes_not_report env
  have hs := show_usage_not_report
  have hempty : ("" : String).isEmpty = true := by decide
  unfold main
  rw [hnew]
  cases hw : env.option_write with
  | false =>
    simp only [huart, hempty, Bool.true_eq_false, if_false, Bool.false_eq_true]
    refine ⟨_, rfl, ?_⟩
    intro e he
    rcases List.mem_append.mp he with he | he
    · split_ifs at he <;>
        simp only [List.mem_append, List.mem_cons, List.mem_singleton, List.not_mem_nil,
          or_false] at he <;>
        casesm* _ ∨ _ <;>
        first
          | exact hs e (by assumption)
          | (subst_vars
             simp [Effect.isReadCall, Effect.isRegisterEntry, Effect.isResultKey])
    · exact hu e he
  | true =>
    have hv := hval hw
    simp only [huart, hempty, hv, Bool.true_eq_false, if_false, if_true]
    refine ⟨_, rfl, ?_⟩
    intro e he
    rcases List.mem_append.mp he with he | he
    · split_ifs at he <;>
        simp only [List.mem_append, List.mem_cons, List.mem_singleton, List.not_mem_nil,
          or_false] at he <;>
        casesm* _ ∨ _ <;>
        first
          | exact hs e (by assumption)
          | exact hu e (by assumption)
          | (subst_vars
             simp [Effect.isReadCall, Effect.isRegisterEntry, Effect.isResultKey, lit])
    · simp only [List.mem_singleton] at he
      subst he
      decide

/-- A run that reaches the `-read` mode: its effects end with those of `readMode`
and it returns 0. -/
theorem main_read_mode (env : Env) (huart : env.handle_uart = true)
    (hopen : 0 ≤ env.uart_open) (hout : 0 ≤ env.set_output) (hattr : 0 ≤ env.set_attributes)
    (hval : env.option_write = true → env.option_value = true)
    (hread : env.option_read = true) :
    ∃ pre : List Effect,
      (main env).effects = pre ++ readMode env ∧ (main env).exit_code = 0 ∧
      ∀ e ∈ pre, e.isReadCall = false ∧ e.isRegisterEntry = false ∧ e.isResultKey = false := by
  obtain ⟨t, ht, hpre⟩ := main_eq_readAndReturn env huart hopen hout hattr hval
  refine ⟨t, ?_, ?_, hpre⟩
  · rw [ht]; simp [readAndReturn, hread]
  · rw [ht]; rfl

/-- The label of entry `i` is `register_address + 2 * i`: the `u32` sum does not wrap. -/
theorem registerEntry_eq (env : Env) (reg : Nat) (result : Data) (i : Nat)
    (hreg : reg < 65536) (hi : i < 65536) :
    registerEntry env reg result i =
      .key { fmt := "[%ld]", args := [.int ((reg + 2 * i : Nat) : Int)] }
           { fmt := "%d", args := [.int (env.at_u16 result i)] } := by
  unfold registerEntry
  have h : (reg + i * 2 % 2 ^ 32) % 2 ^ 32 = reg + 2 * i := by omega
  rw [h]

/-- What the loop prints is a register entry and nothing else. -/
theorem registerEntry_isRegisterEntry (env : Env) (reg : Nat) (result : Data) (i : Nat) :
    (registerEntry env reg result i).isRegisterEntry = true
    ∧ (registerEntry env reg result i).isResultKey = false
    ∧ (registerEntry env reg result i).isReadCall = false := by
  simp [registerEntry, Effect.isRegisterEntry, Effect.isResultKey, Effect.isReadCall]

/-- Filtering a list none of whose elements passes. -/
theorem filter_eq_nil_of_forall (p : Effect → Bool) (l : List Effect)
    (h : ∀ e ∈ l, p e = false) : l.filter p = [] := by
  rw [List.filter_eq_nil_iff]
  intro e he
  simp [h e he]

/-- Filtering a list all of whose elements pass. -/
theorem filter_eq_self_of_forall (p : Effect → Bool) (l : List Effect)
    (h : ∀ e ∈ l, p e = true) : l.filter p = l := by
  rw [List.filter_eq_self]
  exact h

/-- The register entries and `result` keys of the `-read` report. -/
theorem readMode_report (env : Env) :
    (readMode env).filter (fun e => e.isRegisterEntry || e.isResultKey) =
      if toU16 env.number_of_points = 0 ∨ env.read_holding_registers.length = 0 then
        [.key (lit "result") (lit "fail")]
      else
        (List.range (toU16 env.number_of_points)).map
            (registerEntry env (toU16 env.register_address) env.read_holding_registers)
          ++ [.key (lit "result") (lit "success")] := by
  unfold readMode
  by_cases hn : toU16 env.number_of_points = 0
  · simp [hn, Effect.isRegisterEntry, Effect.isResultKey, lit, List.filter]
  · by_cases hl : env.read_holding_registers.length = 0
    · simp [hn, hl, Effect.isRegisterEntry, Effect.isResultKey, lit, List.filter]
    · have hf : (registerLoop env (toU16 env.register_address) env.read_holding_registers
          (toU16 env.number_of_points) 0).filter (fun e => e.isRegisterEntry || e.isResultKey)
          = (List.range (toU16 env.number_of_points)).map
            (registerEntry env (toU16 env.register_address) env.read_holding_registers) := by
        rw [registerLoop_zero]
        apply filter_eq_self_of_forall
        intro e he
        obtain ⟨i, _, rfl⟩ := List.mem_map.mp he
        simp [(registerEntry_isRegisterEntry env _ _ i).1]
      simp only [hn, hl, if_false, false_or, List.filter_append, hf]
      simp [Effect.isRegisterEntry, Effect.isResultKey, lit, List.filter]

/-- The register entries and `result` keys of a run that reaches the `-read` mode. -/
theorem main_report (env : Env) (huart : env.handle_uart = true)
    (hopen : 0 ≤ env.uart_open) (hout : 0 ≤ env.set_output) (hattr : 0 ≤ env.set_attributes)
    (hval : env.option_write = true → env.option_value = true)
    (hread : env.option_read = true) :
    (main env).effects.filter (fun e => e.isRegisterEntry || e.isResultKey) =
      if toU16 env.number_of_points = 0 ∨ env.read_holding_registers.length = 0 then
        [.key (lit "result") (lit "fail")]
      else
        (List.range (toU16 env.number_of_points)).map
            (registerEntry env (toU16 env.register_address) env.read_holding_registers)
          ++ [.key (lit "result") (lit "success")] := by
  obtain ⟨pre, heff, _, hpre⟩ := main_read_mode env huart hopen hout hattr hval hread
  rw [heff, List.filter_append, readMode_report]
  rw [filter_eq_nil_of_forall _ pre (fun e he => by simp [(hpre e he).2.1, (hpre e he).2.2])]
  rfl

/-- When `result` `success` is printed by a run that reaches the `-read` mode. -/
theorem success_mem_main_iff (env : Env) (huart : env.handle_uart = true)
    (hopen : 0 ≤ env.uart_open) (hout : 0 ≤ env.set_output) (hattr : 0 ≤ env.set_attributes)
    (hval : env.option_write = true → env.option_value = true)
    (hread : env.option_read = true) :
    Effect.key (lit "result") (lit "success") ∈ (main env).effects ↔
      toU16 env.number_of_points ≠ 0 ∧ env.read_holding_registers.length ≠ 0 := by
  have hrep := main_report env huart hopen hout hattr hval hread
  have hiff : Effect.key (lit "result") (lit "success") ∈ (main env).effects ↔
      Effect.key (lit "result") (lit "success") ∈
        (main env).effects.filter (fun e => e.isRegisterEntry || e.isResultKey) := by
    rw [List.mem_filter]
    simp [Effect.isResultKey, lit]
  rw [hiff, hrep]
  by_cases hn : toU16 env.number_of_points = 0
  · simp [hn, lit]
  · by_cases hl : env.read_holding_registers.length = 0
    · simp [hn, hl, lit]
    · simp [hn, hl]

/-! ## The `-read` mode -/

/-- C9, as stated, fails: two registers are asked for and the device returns one
(two bytes); `result` `success` is printed although the data does not hold two
registers. -/
theorem short_read_reported_success :
    ¬ (Effect.key (lit "result") (lit "success")
          ∈ (main shortReadEnv).effects →
        shortReadEnv.read_holding_registers.length = 2 * toU16 shortReadEnv.number_of_points) := by
  intro h
  have hs : Effect.key (lit "result") (lit "success")
      ∈ (main shortReadEnv).effects :=
    (success_mem_main_iff _ rfl (by decide) (by decide) (by decide) (by decide) rfl).mpr
      ⟨by decide, by decide⟩
  have := h hs
  revert this
  decide

/-- C9, amended. In a run that reaches the `-read` mode, `result` `success` is
printed exactly when `number_of_points` is not zero and the returned data is not
empty. -/
theorem success_iff_points_and_data_nonempty (env : Env) (huart : env.handle_uart = true)
    (hopen : 0 ≤ env.uart_open) (hout : 0 ≤ env.set_output) (hattr : 0 ≤ env.set_attributes)
    (hval : env.option_write = true → env.option_value = true)
    (hread : env.option_read = true) :
    (Effect.key (lit "result") (lit "success") ∈ (main env).effects ↔
      toU16 env.number_of_points ≠ 0 ∧ env.read_holding_registers.length ≠ 0) :=
  success_mem_main_iff env huart hopen hout hattr hval hread

/-- The sample run asks for two registers and receives four bytes: `success`. -/
theorem success_iff_points_and_data_nonempty_witness :
    Effect.key (lit "result") (lit "success") ∈ (main sampleEnv).effects ↔
      toU16 sampleEnv.number_of_points ≠ 0 ∧ sampleEnv.read_holding_registers.length ≠ 0 :=
  success_iff_points_and_data_nonempty sampleEnv rfl (by decide) (by decide) (by decide) (by decide) rfl

/-- C10. In a run that reaches the `-read` mode with `number_of_points = n > 0`
and a non-empty returned data block, the register entries and `result` keys
printed are exactly: for `i = 0 .. n - 1` in increasing order the entry with
label `register_address + 2 * i` and value `result.at_u16(i)`, then `result`
`success`.  When `n = 0` or the data is empty, they are `result` `fail` alone. -/
theorem read_report_lists_registers_in_order (env : Env) (huart : env.handle_uart = true)
    (hopen : 0 ≤ env.uart_open) (hout : 0 ≤ env.set_output) (hattr : 0 ≤ env.set_attributes)
    (hval : env.option_write = true → env.option_value = true)
    (hread : env.option_read = true) :
    (0 < toU16 env.number_of_points → env.read_holding_registers ≠ [] →
      (main env).effects.filter (fun e => e.isRegisterEntry || e.isResultKey) =
        (List.range (toU16 env.number_of_points)).map
            (fun i => Effect.key
              { fmt := "[%ld]", args := [.int ((toU16 env.register_address + 2 * i : Nat) : Int)] }
              { fmt := "%d", args := [.int (env.at_u16 env.read_holding_registers i)] })
          ++ [.key (lit "result") (lit "success")])
    ∧ (toU16 env.number_of_points = 0 ∨ env.read_holding_registers = [] →
      (main env).effects.filter (fun e => e.isRegisterEntry || e.isResultKey) =
        [.key (lit "result") (lit "fail")]) := by
  have hrep := main_report env huart hopen hout hattr hval hread
  constructor
  · intro hn hl
    have hl2 : env.read_holding_registers.length ≠ 0 := by
      simpa [List.length_eq_zero] using hl
    rw [hrep, if_neg (by omega)]
    congr 1
    apply List.map_congr_left
    intro i hi
    have hi2 : i < toU16 env.number_of_points := List.mem_range.mp hi
    have hb := toU16_lt env.number_of_points
    exact registerEntry_eq env _ _ i (toU16_lt _) (by omega)
  · intro h
    rw [hrep, if_pos]
    rcases h with h | h
    · exact Or.inl h
    · exact Or.inr (by simp [h])

/-- The sample run prints the registers at `0x10` and `0x12`, then `success`. -/
theorem read_report_lists_registers_in_order_witness :
    (main sampleEnv).effects.filter (fun e => e.isRegisterEntry || e.isResultKey) =
      [.key { fmt := "[%ld]", args := [.int 16] } { fmt := "%d", args := [.int 1792] },
       .key { fmt := "[%ld]", args := [.int 18] } { fmt := "%d", args := [.int 513] },
       .key (lit "result") (lit "success")] :=
  (read_report_lists_registers_in_order sampleEnv rfl (by decide) (by decide) (by decide) (by decide) rfl).1
    (by decide) (by decide)

/-! ## Initialization failures -/

/-- C6 fails on the code. When the UART initializes, `modbus.initialize()` returns
a negative value and `-write` (if given) comes with `-value`, `main` prints the
error and the usage and goes on: it returns 0. -/
theorem main_returns_zero_after_failed_init (env : Env) (huart : env.handle_uart = true)
    (hopen : 0 ≤ env.uart_open) (hout : 0 ≤ env.set_output) (hattr : 0 ≤ env.set_attributes)
    (hinit : env.init_result < 0)
    (hval : env.option_write = true → env.option_value = true) :
    (main env).exit_code = 0
    ∧ (main env).effects.take 7 =
        [.uartOpen, .pinSetOutput, .uartSetAttributes, .modbusInit,
         .error { fmt := "Invalid Uart: %s", args := [.str env.init_error_message] },
         .openObject "modbusprobe",
         .key (lit "usage")
           (lit "modbusuart -uart <port> -tx <x.y> -rx <x.y> -tx_enable <x.y> -f <bitrate>")] := by
  have hnew := new_of_success env.pin_level env.freq _ _ _ hopen hout hattr
  have hempty : ("" : String).isEmpty = true := by decide
  unfold main
  rw [hnew]
  cases hw : env.option_write with
  | false =>
    simp only [huart, hempty, hinit, Bool.true_eq_false, if_false, if_true, Bool.false_eq_true]
    refine ⟨rfl, ?_⟩
    cases hr : env.option_read <;> simp [readAndReturn, hr, show_usage]
  | true =>
    have hv := hval hw
    simp only [huart, hempty, hv, hinit, Bool.true_eq_false, if_false, if_true]
    refine ⟨rfl, ?_⟩
    by_cases hp : env.preset_single_register < 0 <;>
      cases hr : env.option_read <;> simp [readAndReturn, hr, hp, show_usage]

/-- The sample run with a failing `modbus.initialize()` ends with exit code 0. -/
theorem main_returns_zero_after_failed_init_witness :
    (main initFailsEnv).exit_code = 0 :=
  (main_returns_zero_after_failed_init initFailsEnv
    rfl (by decide) (by decide) (by decide) (by decide) (by decide)).1

/-- A failing step of the constructor leaves a non-empty error message. -/
theorem new_error_message_ne_empty (level : Bool) (freq : Nat) (o s a : Int)
    (h : o < 0 ∨ s < 0 ∨ a < 0) :
    (ModbusUart.new level freq o s a).error_message.isEmpty = false := by
  unfold ModbusUart.new
  by_cases ho : o < 0
  · simp only [ho, if_true, ModbusUart.set_error_message]; decide
  · by_cases hs : s < 0
    · simp only [ho, hs, if_true, if_false, ModbusUart.set_error_message]; decide
    · have ha : a < 0 := by tauto
      simp only [ho, hs, ha, if_true, if_false, ModbusUart.set_error_message]; decide

/-- C7. Once `cli.handle_uart` has succeeded: when one of the three steps of the
constructor returns a negative value, the error message of the adapter is not
empty and `main` prints it and exits with code 1, having called neither
`modbus.initialize()` nor `preset_single_register` nor `read_holding_registers`;
the first failing step sets the message and the later steps are skipped; and
when the three steps succeed the constructor leaves the message unset. -/
theorem uart_init_failure_exits_one (env : Env) (huart : env.handle_uart = true) :
    (env.uart_open < 0 ∨ env.set_output < 0 ∨ env.set_attributes < 0 →
      (ModbusUart.new env.pin_level env.freq env.uart_open env.set_output
          env.set_attributes).error_message ≠ ""
      ∧ (main env).exit_code = 1
      ∧ (main env).effects =
          (ModbusUart.new env.pin_level env.freq env.uart_open env.set_output
            env.set_attributes).effects
          ++ [.error { fmt := "Failed to initialize modbus UART: %s",
                       args := [.str (ModbusUart.new env.pin_level env.freq env.uart_open
                         env.set_output env.set_attributes).error_message] }]
      ∧ ∀ e ∈ (main env).effects,
          e ≠ .modbusInit ∧ (∀ d r v, e ≠ .presetSingleRegister d r v)
            ∧ ∀ d r n, e ≠ .readHoldingRegisters d r n)
    ∧ (env.uart_open < 0 →
        (ModbusUart.new env.pin_level env.freq env.uart_open env.set_output
          env.set_attributes).effects = [.uartOpen, .setErrorMessage "Failed to open UART"])
    ∧ (0 ≤ env.uart_open → env.set_output < 0 →
        (ModbusUart.new env.pin_level env.freq env.uart_open env.set_output
          env.set_attributes).effects =
          [.uartOpen, .pinSetOutput, .setErrorMessage "Failed to initialize tx enable"])
    ∧ (0 ≤ env.uart_open → 0 ≤ env.set_output → env.set_attributes < 0 →
        (ModbusUart.new env.pin_level env.freq env.uart_open env.set_output
          env.set_attributes).effects =
          [.uartOpen, .pinSetOutput, .uartSetAttributes,
           .setErrorMessage "Failed to set UART attributes"])
    ∧ (0 ≤ env.uart_open → 0 ≤ env.set_output → 0 ≤ env.set_attributes →
        (ModbusUart.new env.pin_level env.freq env.uart_open env.set_output
          env.set_attributes).error_message = ""
        ∧ ∀ msg, Effect.setErrorMessage msg ∉
            (ModbusUart.new env.pin_level env.freq env.uart_open env.set_output
              env.set_attributes).effects) := by
  have e1 : env.uart_open < 0 →
      (ModbusUart.new env.pin_level env.freq env.uart_open env.set_output
        env.set_attributes).effects = [.uartOpen, .setErrorMessage "Failed to open UART"] := by
    intro ho
    simp [ModbusUart.new, ModbusUart.set_error_message, ModbusUart.emit, ho]
  have e2 : 0 ≤ env.uart_open → env.set_output < 0 →
      (ModbusUart.new env.pin_level env.freq env.uart_open env.set_output
        env.set_attributes).effects =
        [.uartOpen, .pinSetOutput, .setErrorMessage "Failed to initialize tx enable"] := by
    intro ho hs
    simp [ModbusUart.new, ModbusUart.set_error_message, ModbusUart.emit, not_lt.mpr ho, hs]
  have e3 : 0 ≤ env.uart_open → 0 ≤ env.set_output → env.set_attributes < 0 →
      (ModbusUart.new env.pin_level env.freq env.uart_open env.set_output
        env.set_attributes).effects =
        [.uartOpen, .pinSetOutput, .uartSetAttributes,
         .setErrorMessage "Failed to set UART attributes"] := by
    intro ho hs ha
    simp [ModbusUart.new, ModbusUart.set_error_message, ModbusUart.emit, not_lt.mpr ho,
      not_lt.mpr hs, ha]
  refine ⟨?_, e1, e2, e3, ?_⟩
  · intro hfail
    have hne := new_error_message_ne_empty env.pin_level env.freq _ _ _ hfail
    have hmain : main env =
        { exit_code := 1,
          effects := (ModbusUart.new env.pin_level env.freq env.uart_open env.set_output
              env.set_attributes).effects
            ++ [.error { fmt := "Failed to initialize modbus UART: %s",
                         args := [.str (ModbusUart.new env.pin_level env.freq env.uart_open
                           env.set_output env.set_attributes).error_message] }] } := by
      unfold main
      simp only [huart, hne, Bool.true_eq_false, if_false, if_true]
    refine ⟨?_, ?_, ?_, ?_⟩
    · intro h
      rw [h] at hne
      exact absurd hne (by decide)
    · rw [hmain]
    · rw [hmain]
    · rw [hmain]
      intro e he
      simp only [List.mem_append, List.mem_singleton] at he
      rcases he with he | he
      · by_cases ho : env.uart_open < 0
        · rw [e1 ho] at he
          simp at he
          rcases he with he | he <;> subst he <;> simp
        · by_cases hs : env.set_output < 0
          · rw [e2 (not_lt.mp ho) hs] at he
            simp at he
            rcases he with he | he | he <;> subst he <;> simp
          · have ha : env.set_attributes < 0 := by tauto
            rw [e3 (not_lt.mp ho) (not_lt.mp hs) ha] at he
            simp at he
            rcases he with he | he | he | he <;> subst he <;> simp
      · subst he
        simp
  · intro ho hs ha
    rw [new_of_success _ _ _ _ _ ho hs ha]
    exact ⟨rfl, by intro msg; simp⟩

/-- The sample run with a UART that does not open ends with exit code 1. -/
theorem uart_init_failure_exits_one_witness :
    (main openFailsEnv).exit_code = 1 :=
  ((uart_init_failure_exits_one openFailsEnv rfl).1 (Or.inl (by decide))).2.1

/-! ## The `-read` mode with no register -/

/-- C8, as stated, fails: with `number_of_points == 0` the failure is reported, but
the Modbus read operation has been invoked. -/
theorem read_zero_points_invokes_read :
    ¬ (Effect.error (lit "invalid number of points")
          ∈ (main readZeroEnv).effects
      ∧ Effect.key (lit "result") (lit "fail")
          ∈ (main readZeroEnv).effects
      ∧ ∀ e ∈ (main readZeroEnv).effects,
          e.isReadCall = false) := by
  decide

/-- C8, amended. In a run that reaches the `-read` mode with `number_of_points == 0`,
the program invokes the Modbus read operation once, with count 0, and then reports
the failure: the error `invalid number of points` and `result` `fail`, with no
register entry. -/
theorem read_zero_points_fails_after_read_call (env : Env) (huart : env.handle_uart = true)
    (hopen : 0 ≤ env.uart_open) (hout : 0 ≤ env.set_output) (hattr : 0 ≤ env.set_attributes)
    (hval : env.option_write = true → env.option_value = true)
    (hread : env.option_read = true) (hzero : toU16 env.number_of_points = 0) :
    ∃ pre : List Effect,
      (main env).effects = pre ++
        [.readHoldingRegisters (toU16 env.device_address) (toU16 env.register_address) 0,
         .openObject "read holding registers",
         .key (lit "device address") { fmt := "%X", args := [.int (toU16 env.device_address)] },
         .key (lit "register address") { fmt := "%X", args := [.int (toU16 env.register_address)] },
         .key (lit "number of points") { fmt := "%X", args := [.int 0] },
         .error (lit "invalid number of points"),
         .key (lit "result") (lit "fail"),
         .closeObject]
      ∧ (∀ e ∈ pre, e.isReadCall = false ∧ e.isRegisterEntry = false ∧ e.isResultKey = false)
      ∧ (main env).exit_code = 0 := by
  obtain ⟨pre, heff, hcode, hpre⟩ := main_read_mode env huart hopen hout hattr hval hread
  refine ⟨pre, ?_, hpre, hcode⟩
  rw [heff]
  simp [readMode, hzero]

/-- The run that asks for 65536 registers, held as zero by the `u16` variable. -/
theorem read_zero_points_fails_after_read_call_witness :
    ∃ pre : List Effect,
      (main readWrappedEnv).effects = pre ++
        [.readHoldingRegisters 1 16 0,
         .openObject "read holding registers",
         .key (lit "device address") { fmt := "%X", args := [.int 1] },
         .key (lit "register address") { fmt := "%X", args := [.int 16] },
         .key (lit "number of points") { fmt := "%X", args := [.int 0] },
         .error (lit "invalid number of points"),
         .key (lit "result") (lit "fail"),
         .closeObject]
      ∧ (∀ e ∈ pre, e.isReadCall = false ∧ e.isRegisterEntry = false ∧ e.isResultKey = false)
      ∧ (main readWrappedEnv).exit_code = 0 :=
  read_zero_points_fails_after_read_call readWrappedEnv rfl (by decide) (by decide) (by decide)
    (by decide) rfl (by decide)

end ModbusProbe
